import Mathlib

/-!
Shallow embedding of the cross-filter state model of the Netflix visual-analytics
dashboard (`src/App.tsx` and the chart components), together with theorems about
its derived-view filters.  Record types mirror the TypeScript interfaces; the
nullable TypeScript fields (`number | null`, `string | null`) become `Option`;
JavaScript string truthiness (the empty string is falsy) is modelled explicitly
where the source tests a string with `?` or `&&`.
-/

namespace NVA

/-- The `typeFilter` literal union `"All" | "Movie" | "TV Show"` of `App.tsx`. -/
inductive CType where
  | All
  | Movie
  | TVShow
deriving DecidableEq, Repr

/-- The record-level content type `Exclude<ContentType, "All">`. -/
inductive RecType where
  | Movie
  | TVShow
deriving DecidableEq, Repr

/-- The check `typeFilter === "All" || d.type === typeFilter`. -/
def matchesType : CType → RecType → Bool
  | .All, _ => true
  | .Movie, .Movie => true
  | .TVShow, .TVShow => true
  | _, _ => false

/-- The rating-group literal union `"Kids" | "Teen" | "Adult" | "Other"`. -/
inductive RatingGroup where
  | Kids
  | Teen
  | Adult
  | Other
deriving DecidableEq, Repr

/-- The constant array `RATINGS` of `App.tsx`. -/
def RATINGS : List RatingGroup := [.Kids, .Teen, .Adult, .Other]

/-- `GenreYearRec` of `App.tsx`. -/
structure GenreYearRec where
  release_year : Int
  genres : String
  type : RecType
  count : Int
  total : Int
deriving DecidableEq, Repr

/-- `MovieRuntimeRec` of `App.tsx` (`runtime_min: number | null` etc.). -/
structure MovieRuntimeRec where
  title : String
  release_year : Int
  runtime_min : Option Int
  rating_group : RatingGroup
  primary_genre : Option String
  primary_country : Option String
deriving DecidableEq, Repr

/-- `TVSeasonsRec` of `App.tsx`. -/
structure TVSeasonsRec where
  title : String
  release_year : Int
  seasons : Option Int
  rating_group : RatingGroup
  primary_genre : Option String
  primary_country : Option String
deriving DecidableEq, Repr

/-- `CountryYearRec` of `App.tsx`. -/
structure CountryYearRec where
  release_year : Int
  country : String
  count : Int
deriving DecidableEq, Repr

/-- `ContentAgeRec` of `App.tsx` / `Row` of `RadialAgeClock.tsx`.  `age_years`
is a JavaScript `number`, modelled as `ℚ` because the bucket lookup of
`RadialAgeClock.tsx` is sensitive to non-integer values. -/
structure ContentAgeRec where
  title : String
  type : RecType
  release_year : Int
  added_year : Int
  age_years : ℚ
  primary_genre : Option String
  rating_group : RatingGroup
deriving DecidableEq, Repr

/-- The nine `useState` filter dimensions of `App.tsx`, bundled. -/
structure FilterState where
  typeFilter : CType
  yearRange : Int × Int
  selectedGenres : List String
  ratingGroups : List RatingGroup
  movieYRange : Option (Int × Int)
  tvYRange : Option (Int × Int)
  selectedCountry : Option String
  focusedActor : Option String
  ageBucket : Option String
deriving DecidableEq, Repr

/-- The year clause `d.release_year >= yearRange[0] && d.release_year <= yearRange[1]`. -/
def yearOk (yr : Int × Int) (y : Int) : Bool :=
  decide (yr.1 ≤ y) && decide (y ≤ yr.2)

/-- JavaScript truthiness of a string: the empty string is falsy. -/
def strTruthy (s : String) : Bool := decide (s ≠ "")

/-- JavaScript truthiness of a `string | null` value. -/
def optTruthy : Option String → Bool
  | none => false
  | some s => strTruthy s

/-- The genre clause of the detail and age-clock views:
`selectedGenres.length === 0 || (d.primary_genre && selectedGenres.includes(d.primary_genre))`. -/
def genreOk (sel : List String) (pg : Option String) : Bool :=
  decide (sel.length = 0) ||
    (match pg with
     | none => false
     | some g => strTruthy g && decide (g ∈ sel))

/-- The country clause `selectedCountry ? d.primary_country === selectedCountry : true`. -/
def countryOk (sc : Option String) (pc : Option String) : Bool :=
  if optTruthy sc then decide (pc = sc) else true

/-- The brush clause `brush ? metric >= brush[0] && metric <= brush[1] : true`.
In the source this clause sits behind the `metric != null` guard of the same
`&&` chain, so the `none` metric branch is never reached. -/
def brushOk (br : Option (Int × Int)) (metric : Option Int) : Bool :=
  match br with
  | none => true
  | some (lo, hi) =>
    match metric with
    | some v => decide (lo ≤ v) && decide (v ≤ hi)
    | none => false

/-- `filteredGenreByYear` of `App.tsx` (lines 168–176). -/
def filteredGenreByYear (data : List GenreYearRec) (fs : FilterState) : List GenreYearRec :=
  data.filter fun d =>
    matchesType fs.typeFilter d.type &&
    yearOk fs.yearRange d.release_year &&
    (decide (fs.selectedGenres.length = 0) || decide (d.genres ∈ fs.selectedGenres))

/-- The row shape `{ release_year, genres, count }` produced by the `heatmapData` map. -/
structure HeatRow where
  release_year : Int
  genres : String
  count : Int
deriving DecidableEq, Repr

/-- The projection `d => ({ release_year: d.release_year, genres: d.genres, count: d.count })`. -/
def projHeat (d : GenreYearRec) : HeatRow :=
  { release_year := d.release_year, genres := d.genres, count := d.count }

/-- `heatmapData` of `App.tsx` (lines 156–165): type and year filters only. -/
def heatmapData (data : List GenreYearRec) (fs : FilterState) : List HeatRow :=
  (data.filter fun d =>
    matchesType fs.typeFilter d.type && yearOk fs.yearRange d.release_year).map projHeat

/-- `totalTitles` of `App.tsx` (lines 178–181): `reduce((acc, d) => acc + d.count, 0)`. -/
def totalTitles (data : List GenreYearRec) (fs : FilterState) : Int :=
  (filteredGenreByYear data fs).foldl (fun acc d => acc + d.count) 0

/-- `filteredMovies` of `App.tsx` (lines 183–195). -/
def filteredMovies (data : List MovieRuntimeRec) (fs : FilterState) : List MovieRuntimeRec :=
  data.filter fun d =>
    d.runtime_min.isSome &&
    yearOk fs.yearRange d.release_year &&
    genreOk fs.selectedGenres d.primary_genre &&
    decide (d.rating_group ∈ fs.ratingGroups) &&
    countryOk fs.selectedCountry d.primary_country &&
    brushOk fs.movieYRange d.runtime_min

/-- `filteredTV` of `App.tsx` (lines 197–209). -/
def filteredTV (data : List TVSeasonsRec) (fs : FilterState) : List TVSeasonsRec :=
  data.filter fun d =>
    d.seasons.isSome &&
    yearOk fs.yearRange d.release_year &&
    genreOk fs.selectedGenres d.primary_genre &&
    decide (d.rating_group ∈ fs.ratingGroups) &&
    countryOk fs.selectedCountry d.primary_country &&
    brushOk fs.tvYRange d.seasons

/-- A fixed age bucket of `RadialAgeClock.tsx`. -/
structure Bucket where
  key : String
  lo : ℚ
  hi : ℚ
deriving DecidableEq, Repr

/-- The constant `BUCKETS` table of `RadialAgeClock.tsx` (lines 22–28). -/
def BUCKETS : List Bucket :=
  [ { key := "0–1y", lo := 0, hi := 1 },
    { key := "2–4y", lo := 2, hi := 4 },
    { key := "5–9y", lo := 5, hi := 9 },
    { key := "10–19y", lo := 10, hi := 19 },
    { key := "20y+", lo := 20, hi := 200 } ]

/-- The `bucketOk` closure of `RadialAgeClock.tsx`: no selection (or a falsy
key) passes everything; otherwise the bucket is looked up by key and the age
must lie in its closed `[lo, hi]` range.  A key absent from `BUCKETS` would
make the source's non-null assertion throw; keys only ever originate from
`BUCKETS`, and that dead branch is modelled as `false`. -/
def bucketOk (sb : Option String) (age : ℚ) : Bool :=
  match sb with
  | none => true
  | some k =>
    if strTruthy k then
      match BUCKETS.find? (fun b => decide (b.key = k)) with
      | some b => decide (b.lo ≤ age) && decide (age ≤ b.hi)
      | none => false
    else true

/-- The `filtered` memo of `RadialAgeClock.tsx` (lines 59–69). -/
def ageFiltered (raw : List ContentAgeRec) (fs : FilterState) : List ContentAgeRec :=
  raw.filter fun r =>
    decide (0 ≤ r.age_years) &&
    yearOk fs.yearRange r.release_year &&
    matchesType fs.typeFilter r.type &&
    genreOk fs.selectedGenres r.primary_genre &&
    bucketOk fs.ageBucket r.age_years

/-- The pivot lookup `BUCKETS.find(b => r.age_years >= b.lo && r.age_years <= b.hi)`
of the `series` memo in `RadialAgeClock.tsx` (line 89), whose result the source
dereferences with a non-null assertion. -/
def findBucket (age : ℚ) : Option Bucket :=
  BUCKETS.find? fun b => decide (b.lo ≤ age) && decide (age ≤ b.hi)

/-- The ring click handler of `RadialAgeClock.tsx` (lines 150–153):
`onSelectBucket(selectedBucket === b.key ? null : b.key)`. -/
def clickBucket (selectedBucket : Option String) (key : String) : Option String :=
  if selectedBucket = some key then none else some key

/-- `minYear` of `App.tsx`: `Math.min` over the years, defaulting to 1990 when empty. -/
def minYearOf : List GenreYearRec → Int
  | [] => 1990
  | d :: ds => ds.foldl (fun m r => min m r.release_year) d.release_year

/-- `maxYear` of `App.tsx`: `Math.max` over the years, defaulting to 2021 when empty. -/
def maxYearOf : List GenreYearRec → Int
  | [] => 2021
  | d :: ds => ds.foldl (fun m r => max m r.release_year) d.release_year

/-- The Reset button handler of `App.tsx` (lines 312–329): sets all nine filter
dimensions to their defaults, ignoring the previous state. -/
def reset (gy : List GenreYearRec) (_fs : FilterState) : FilterState :=
  { typeFilter := .All
    yearRange := (minYearOf gy, maxYearOf gy)
    selectedGenres := []
    ratingGroups := RATINGS
    movieYRange := none
    tvYRange := none
    selectedCountry := none
    focusedActor := none
    ageBucket := none }

/-- `toggleGenre` of `App.tsx` (lines 212–214). -/
def toggleGenre (sel : List String) (g : String) : List String :=
  if decide (g ∈ sel) then sel.filter (fun x => decide (x ≠ g)) else sel ++ [g]

/-- The distinct genres of the genre-year dataset (`allGenres` of `App.tsx`).
The source also sorts the deduplicated array; only membership matters here and
ordering is dropped. -/
def allGenres (gy : List GenreYearRec) : List String :=
  (gy.map (·.genres)).dedup

/-- The distinct genres present in a movie dataset (the "genres present in D"
of the genre-wildcard property, for the movie-detail view). -/
def genresOfMovies (data : List MovieRuntimeRec) : List String :=
  (data.filterMap (·.primary_genre)).dedup

/-- The distinct genres present in a TV dataset. -/
def genresOfTV (data : List TVSeasonsRec) : List String :=
  (data.filterMap (·.primary_genre)).dedup

/-- The distinct genres present in a content-age dataset. -/
def genresOfAges (data : List ContentAgeRec) : List String :=
  (data.filterMap (·.primary_genre)).dedup

/-- `map.get(c) || 0` on an association list standing for the JS `Map`. -/
def getZ : List (String × Int) → String → Int
  | [], _ => 0
  | (k, v) :: rest, c => if k = c then v else getZ rest c

/-- `map.set(c, v)` on an association list: replace the binding or append it. -/
def mapSet : List (String × Int) → String → Int → List (String × Int)
  | [], c, v => [(c, v)]
  | (k, x) :: rest, c, v =>
    if k = c then (c, v) :: rest else (k, x) :: mapSet rest c v

/-- The `totals` memo of `WorldMap.tsx` (lines 32–40): skip records outside
`yearRange`, accumulate `count` per country. -/
def wmTotals (data : List CountryYearRec) (yr : Int × Int) : List (String × Int) :=
  data.foldl
    (fun m r =>
      if decide (r.release_year < yr.1) || decide (yr.2 < r.release_year) then m
      else mapSet m r.country (getZ m r.country + r.count))
    []

/-- The country view as wired in `App.tsx` (line 404–410): `WorldMap` receives
the raw `countryByYear` rows and only `yearRange` from the filter state. -/
def countryTotals (data : List CountryYearRec) (fs : FilterState) : List (String × Int) :=
  wmTotals data fs.yearRange

/-- Modelled from the spec: per-country total as "the sum of count over
CountryYearRecords whose release_year lies in the closed yearRange" and whose
country is the one asked about (claim C7's wording, for comparison with
`wmTotals`). -/
def specCountryTotal (data : List CountryYearRec) (yr : Int × Int) (c : String) : Int :=
  ((data.filter fun r =>
      decide (yr.1 ≤ r.release_year) && decide (r.release_year ≤ yr.2) &&
      decide (r.country = c)).map (·.count)).sum

/-- Modelled from the spec: the movie-detail membership predicate exactly as
claim C2 words it (metric present, year in closed range, genre predicate,
rating membership, country predicate, brush predicate). -/
def specMoviePred (fs : FilterState) (r : MovieRuntimeRec) : Prop :=
  r.runtime_min.isSome = true ∧
  fs.yearRange.1 ≤ r.release_year ∧ r.release_year ≤ fs.yearRange.2 ∧
  (fs.selectedGenres = [] ∨ ∃ g, r.primary_genre = some g ∧ g ∈ fs.selectedGenres) ∧
  r.rating_group ∈ fs.ratingGroups ∧
  (fs.selectedCountry = none ∨ r.primary_country = fs.selectedCountry) ∧
  (fs.movieYRange = none ∨
    ∃ lo hi v, fs.movieYRange = some (lo, hi) ∧ r.runtime_min = some v ∧ lo ≤ v ∧ v ≤ hi)

/-- Modelled from the spec: the TV-detail membership predicate exactly as
claim C2 words it. -/
def specTVPred (fs : FilterState) (r : TVSeasonsRec) : Prop :=
  r.seasons.isSome = true ∧
  fs.yearRange.1 ≤ r.release_year ∧ r.release_year ≤ fs.yearRange.2 ∧
  (fs.selectedGenres = [] ∨ ∃ g, r.primary_genre = some g ∧ g ∈ fs.selectedGenres) ∧
  r.rating_group ∈ fs.ratingGroups ∧
  (fs.selectedCountry = none ∨ r.primary_country = fs.selectedCountry) ∧
  (fs.tvYRange = none ∨
    ∃ lo hi v, fs.tvYRange = some (lo, hi) ∧ r.seasons = some v ∧ lo ≤ v ∧ v ≤ hi)

/-- A base filter state with every dimension at its default. -/
def fs0 : FilterState :=
  { typeFilter := .All
    yearRange := (1990, 2021)
    selectedGenres := []
    ratingGroups := RATINGS
    movieYRange := none
    tvYRange := none
    selectedCountry := none
    focusedActor := none
    ageBucket := none }

/-- Sample genre-year row (the Comedy row of the spec's scenario). -/
def gy1 : GenreYearRec :=
  { release_year := 2015, genres := "Comedy", type := .Movie, count := 10, total := 15 }

/-- Sample genre-year row (the Drama row of the spec's scenario). -/
def gy2 : GenreYearRec :=
  { release_year := 2015, genres := "Drama", type := .Movie, count := 5, total := 15 }

/-- Sample movie record with every optional field present. -/
def mv1 : MovieRuntimeRec :=
  { title := "A", release_year := 2015, runtime_min := some 100,
    rating_group := .Kids, primary_genre := some "Drama", primary_country := some "France" }

/-- Sample movie record with no primary genre and no country. -/
def mv2 : MovieRuntimeRec :=
  { title := "B", release_year := 2015, runtime_min := some 90,
    rating_group := .Kids, primary_genre := none, primary_country := none }

/-- Sample movie record whose runtime is absent. -/
def mvN : MovieRuntimeRec :=
  { title := "N", release_year := 2015, runtime_min := none,
    rating_group := .Kids, primary_genre := some "Drama", primary_country := none }

/-- Sample TV record with every optional field present. -/
def tv1 : TVSeasonsRec :=
  { title := "S", release_year := 2015, seasons := some 3,
    rating_group := .Adult, primary_genre := some "Drama", primary_country := some "India" }

/-- Sample content-age record of age exactly 1 (the upper bound of the first bucket). -/
def ca1 : ContentAgeRec :=
  { title := "C", type := .Movie, release_year := 2000, added_year := 2001,
    age_years := 1, primary_genre := some "Drama", rating_group := .Kids }

/-- Sample content-age record of age 3 (inside the second bucket). -/
def ca3 : ContentAgeRec :=
  { title := "E", type := .Movie, release_year := 2010, added_year := 2013,
    age_years := 3, primary_genre := some "Comedy", rating_group := .Kids }

/-- Sample content-age record of age 5. -/
def ca5 : ContentAgeRec :=
  { title := "D", type := .Movie, release_year := 2010, added_year := 2015,
    age_years := 5, primary_genre := some "Comedy", rating_group := .Kids }

/-- Sample content-age record of non-integer age 3/2, in the gap between buckets. -/
def caHalf : ContentAgeRec :=
  { title := "F", type := .Movie, release_year := 2010, added_year := 2011,
    age_years := mkRat 3 2, primary_genre := some "Comedy", rating_group := .Kids }

/-- Sample content-age record with negative age (release after catalogue add). -/
def caNeg : ContentAgeRec :=
  { title := "G", type := .Movie, release_year := 2015, added_year := 2014,
    age_years := -1, primary_genre := some "Drama", rating_group := .Kids }

/-- Sample country-year rows. -/
def cy1 : CountryYearRec := { release_year := 2015, country := "France", count := 4 }

/-- Sample country-year row, same country, different year. -/
def cy2 : CountryYearRec := { release_year := 2016, country := "France", count := 6 }

/-- Sample country-year row outside the sample year range. -/
def cy3 : CountryYearRec := { release_year := 2010, country := "India", count := 2 }

/-! ## Helper lemmas -/

theorem foldl_min_le_acc (l : List GenreYearRec) :
    ∀ a : Int, l.foldl (fun m r => min m r.release_year) a ≤ a := by
  induction l with
  | nil => intro a; simp
  | cons d ds ih =>
    intro a
    exact le_trans (ih (min a d.release_year)) (min_le_left _ _)

theorem foldl_min_le_mem (l : List GenreYearRec) :
    ∀ (a : Int) (r : GenreYearRec), r ∈ l →
      l.foldl (fun m r => min m r.release_year) a ≤ r.release_year := by
  induction l with
  | nil => intro a r h; simp at h
  | cons d ds ih =>
    intro a r h
    rcases List.mem_cons.mp h with rfl | h'
    · exact le_trans (foldl_min_le_acc ds _) (min_le_right _ _)
    · exact ih _ r h'

theorem acc_le_foldl_max (l : List GenreYearRec) :
    ∀ a : Int, a ≤ l.foldl (fun m r => max m r.release_year) a := by
  induction l with
  | nil => intro a; simp
  | cons d ds ih =>
    intro a
    exact le_trans (le_max_left _ _) (ih (max a d.release_year))

theorem mem_le_foldl_max (l : List GenreYearRec) :
    ∀ (a : Int) (r : GenreYearRec), r ∈ l →
      r.release_year ≤ l.foldl (fun m r => max m r.release_year) a := by
  induction l with
  | nil => intro a r h; simp at h
  | cons d ds ih =>
    intro a r h
    rcases List.mem_cons.mp h with rfl | h'
    · exact le_trans (le_max_right _ _) (acc_le_foldl_max ds _)
    · exact ih _ r h'

theorem minYearOf_le (gy : List GenreYearRec) (r : GenreYearRec) (h : r ∈ gy) :
    minYearOf gy ≤ r.release_year := by
  cases gy with
  | nil => simp at h
  | cons d ds =>
    rcases List.mem_cons.mp h with rfl | h'
    · exact foldl_min_le_acc ds r.release_year
    · exact foldl_min_le_mem ds d.release_year r h'

theorem le_maxYearOf (gy : List GenreYearRec) (r : GenreYearRec) (h : r ∈ gy) :
    r.release_year ≤ maxYearOf gy := by
  cases gy with
  | nil => simp at h
  | cons d ds =>
    rcases List.mem_cons.mp h with rfl | h'
    · exact acc_le_foldl_max ds r.release_year
    · exact mem_le_foldl_max ds d.release_year r h'

theorem foldl_add_count (l : List GenreYearRec) :
    ∀ a : Int, l.foldl (fun acc d => acc + d.count) a = a + (l.map (·.count)).sum := by
  induction l with
  | nil => intro a; simp
  | cons d ds ih =>
    intro a
    simp only [List.foldl_cons, List.map_cons, List.sum_cons, ih]
    ring

/-! ## Claim theorems -/

theorem genreOk_nil (pg : Option String) : genreOk [] pg = true := by
  simp [genreOk]

theorem genreOk_of_mem (sel : List String) (g : String) (hg : g ∈ sel) (hne : g ≠ "") :
    genreOk sel (some g) = true := by
  simp [genreOk, strTruthy, hne, hg]

/-- C1 (amended): deriving with empty `selectedGenres` equals deriving with
`selectedGenres` set to all genres present in the dataset — unconditionally
for the genre-by-year view, and for the movie-detail, TV-detail and age-clock
views provided every record has a present, non-empty `primary_genre` (a record
with an absent genre passes the empty selection but fails every non-empty
one). -/
theorem C1_empty_genres_wildcard (gy : List GenreYearRec) (mv : List MovieRuntimeRec)
    (tv : List TVSeasonsRec) (ca : List ContentAgeRec) (fs : FilterState)
    (hm : ∀ r ∈ mv, ∃ g, r.primary_genre = some g ∧ g ≠ "")
    (htv : ∀ r ∈ tv, ∃ g, r.primary_genre = some g ∧ g ≠ "")
    (hca : ∀ r ∈ ca, ∃ g, r.primary_genre = some g ∧ g ≠ "") :
    filteredGenreByYear gy { fs with selectedGenres := [] } =
      filteredGenreByYear gy { fs with selectedGenres := allGenres gy } ∧
    filteredMovies mv { fs with selectedGenres := [] } =
      filteredMovies mv { fs with selectedGenres := genresOfMovies mv } ∧
    filteredTV tv { fs with selectedGenres := [] } =
      filteredTV tv { fs with selectedGenres := genresOfTV tv } ∧
    ageFiltered ca { fs with selectedGenres := [] } =
      ageFiltered ca { fs with selectedGenres := genresOfAges ca } := by
  refine ⟨List.filter_congr ?_, List.filter_congr ?_, List.filter_congr ?_,
    List.filter_congr ?_⟩
  · intro d hd
    have hmem : d.genres ∈ allGenres gy :=
      List.mem_dedup.mpr (List.mem_map.mpr ⟨d, hd, rfl⟩)
    simp [hmem]
  · intro d hd
    obtain ⟨g, hg, hne⟩ := hm d hd
    have hmem : g ∈ genresOfMovies mv :=
      List.mem_dedup.mpr (List.mem_filterMap.mpr ⟨d, hd, hg⟩)
    simp [hg, genreOk_nil, genreOk_of_mem _ _ hmem hne]
  · intro d hd
    obtain ⟨g, hg, hne⟩ := htv d hd
    have hmem : g ∈ genresOfTV tv :=
      List.mem_dedup.mpr (List.mem_filterMap.mpr ⟨d, hd, hg⟩)
    simp [hg, genreOk_nil, genreOk_of_mem _ _ hmem hne]
  · intro d hd
    obtain ⟨g, hg, hne⟩ := hca d hd
    have hmem : g ∈ genresOfAges ca :=
      List.mem_dedup.mpr (List.mem_filterMap.mpr ⟨d, hd, hg⟩)
    simp [hg, genreOk_nil, genreOk_of_mem _ _ hmem hne]

/-- Counterexample to C1 as stated: on a movie dataset containing a record
with an absent `primary_genre`, the view derived with empty `selectedGenres`
differs from the view derived with `selectedGenres` set to all genres present
in the dataset. -/
theorem C1_counterexample :
    filteredMovies [mv1, mv2] { fs0 with selectedGenres := [] } ≠
      filteredMovies [mv1, mv2] { fs0 with selectedGenres := genresOfMovies [mv1, mv2] } := by
  decide

/-- Witness for C1 on concrete one-record datasets with present, non-empty
genres. -/
theorem C1_witness :
    filteredGenreByYear [gy1] { fs0 with selectedGenres := [] } =
      filteredGenreByYear [gy1] { fs0 with selectedGenres := allGenres [gy1] } ∧
    filteredMovies [mv1] { fs0 with selectedGenres := [] } =
      filteredMovies [mv1] { fs0 with selectedGenres := genresOfMovies [mv1] } ∧
    filteredTV [tv1] { fs0 with selectedGenres := [] } =
      filteredTV [tv1] { fs0 with selectedGenres := genresOfTV [tv1] } ∧
    ageFiltered [ca3] { fs0 with selectedGenres := [] } =
      ageFiltered [ca3] { fs0 with selectedGenres := genresOfAges [ca3] } :=
  C1_empty_genres_wildcard [gy1] [mv1] [tv1] [ca3] fs0
    (by intro r hr
        rcases List.mem_singleton.mp hr with rfl
        exact ⟨"Drama", rfl, by decide⟩)
    (by intro r hr
        rcases List.mem_singleton.mp hr with rfl
        exact ⟨"Drama", rfl, by decide⟩)
    (by intro r hr
        rcases List.mem_singleton.mp hr with rfl
        exact ⟨"Comedy", rfl, by decide⟩)

theorem yearOk_iff (yr : Int × Int) (y : Int) :
    yearOk yr y = true ↔ yr.1 ≤ y ∧ y ≤ yr.2 := by
  simp [yearOk]

theorem genreOk_iff (sel : List String) (pg : Option String) (hg : "" ∉ sel) :
    genreOk sel pg = true ↔ (sel = [] ∨ ∃ g, pg = some g ∧ g ∈ sel) := by
  cases pg with
  | none => simp [genreOk, List.length_eq_zero]
  | some g =>
    by_cases hge : g = ""
    · subst hge
      simp [genreOk, strTruthy, List.length_eq_zero, hg]
    · simp [genreOk, strTruthy, hge, List.length_eq_zero]

theorem countryOk_iff (sc pc : Option String) (hsc : sc ≠ some "") :
    countryOk sc pc = true ↔ (sc = none ∨ pc = sc) := by
  cases sc with
  | none => simp [countryOk, optTruthy]
  | some c =>
    have hc : c ≠ "" := by
      rintro rfl
      exact hsc rfl
    simp [countryOk, optTruthy, strTruthy, hc]

theorem brushOk_iff (br : Option (Int × Int)) (metric : Option Int)
    (hm : metric.isSome = true) :
    brushOk br metric = true ↔
      (br = none ∨ ∃ lo hi v, br = some (lo, hi) ∧ metric = some v ∧ lo ≤ v ∧ v ≤ hi) := by
  cases br with
  | none => simp [brushOk]
  | some p =>
    obtain ⟨lo, hi⟩ := p
    cases metric with
    | none => simp at hm
    | some v =>
      simp only [brushOk, Bool.and_eq_true, decide_eq_true_eq, Option.some.injEq,
        Prod.mk.injEq, reduceCtorEq, false_or]
      constructor
      · rintro ⟨ha, hb⟩
        exact ⟨lo, hi, v, ⟨rfl, rfl⟩, rfl, ha, hb⟩
      · rintro ⟨lo', hi', v', ⟨rfl, rfl⟩, hv, ha, hb⟩
        cases hv
        exact ⟨ha, hb⟩

theorem filteredMovies_mem_iff (mdata : List MovieRuntimeRec) (fs : FilterState)
    (mr : MovieRuntimeRec) (hsc : fs.selectedCountry ≠ some "")
    (hg : "" ∉ fs.selectedGenres) :
    mr ∈ filteredMovies mdata fs ↔ mr ∈ mdata ∧ specMoviePred fs mr := by
  rw [filteredMovies, List.mem_filter]
  constructor
  · rintro ⟨hmm, hp⟩
    refine ⟨hmm, ?_⟩
    simp only [Bool.and_eq_true, decide_eq_true_eq] at hp
    obtain ⟨⟨⟨⟨⟨h1, h2⟩, h3⟩, h4⟩, h5⟩, h6⟩ := hp
    exact ⟨h1, ((yearOk_iff _ _).mp h2).1, ((yearOk_iff _ _).mp h2).2,
      (genreOk_iff _ _ hg).mp h3, h4, (countryOk_iff _ _ hsc).mp h5,
      (brushOk_iff _ _ h1).mp h6⟩
  · rintro ⟨hmm, h1, h2a, h2b, h3, h4, h5, h6⟩
    refine ⟨hmm, ?_⟩
    simp only [Bool.and_eq_true, decide_eq_true_eq]
    exact ⟨⟨⟨⟨⟨h1, (yearOk_iff _ _).mpr ⟨h2a, h2b⟩⟩, (genreOk_iff _ _ hg).mpr h3⟩, h4⟩,
      (countryOk_iff _ _ hsc).mpr h5⟩, (brushOk_iff _ _ h1).mpr h6⟩

theorem filteredTV_mem_iff (tdata : List TVSeasonsRec) (fs : FilterState)
    (tr : TVSeasonsRec) (hsc : fs.selectedCountry ≠ some "")
    (hg : "" ∉ fs.selectedGenres) :
    tr ∈ filteredTV tdata fs ↔ tr ∈ tdata ∧ specTVPred fs tr := by
  rw [filteredTV, List.mem_filter]
  constructor
  · rintro ⟨hmm, hp⟩
    refine ⟨hmm, ?_⟩
    simp only [Bool.and_eq_true, decide_eq_true_eq] at hp
    obtain ⟨⟨⟨⟨⟨h1, h2⟩, h3⟩, h4⟩, h5⟩, h6⟩ := hp
    exact ⟨h1, ((yearOk_iff _ _).mp h2).1, ((yearOk_iff _ _).mp h2).2,
      (genreOk_iff _ _ hg).mp h3, h4, (countryOk_iff _ _ hsc).mp h5,
      (brushOk_iff _ _ h1).mp h6⟩
  · rintro ⟨hmm, h1, h2a, h2b, h3, h4, h5, h6⟩
    refine ⟨hmm, ?_⟩
    simp only [Bool.and_eq_true, decide_eq_true_eq]
    exact ⟨⟨⟨⟨⟨h1, (yearOk_iff _ _).mpr ⟨h2a, h2b⟩⟩, (genreOk_iff _ _ hg).mpr h3⟩, h4⟩,
      (countryOk_iff _ _ hsc).mpr h5⟩, (brushOk_iff _ _ h1).mpr h6⟩

/-- C2 (amended): a movie (resp. TV) record is in the detail view iff it is in
the dataset, its metric is present, its year lies in the closed `yearRange`,
the genre predicate holds, its rating group is selected, the country predicate
holds and the brush predicate holds — provided `selectedCountry` is not the
empty string and the empty string is not among `selectedGenres` (JavaScript
truthiness makes those two cases diverge from the claim); a record with an
absent metric never appears, for every filter state with no proviso. -/
theorem C2_detail_view_membership (mdata : List MovieRuntimeRec)
    (tdata : List TVSeasonsRec) (fs : FilterState) (mr : MovieRuntimeRec)
    (tr : TVSeasonsRec) :
    (fs.selectedCountry ≠ some "" → "" ∉ fs.selectedGenres →
      (mr ∈ filteredMovies mdata fs ↔ mr ∈ mdata ∧ specMoviePred fs mr)) ∧
    (fs.selectedCountry ≠ some "" → "" ∉ fs.selectedGenres →
      (tr ∈ filteredTV tdata fs ↔ tr ∈ tdata ∧ specTVPred fs tr)) ∧
    (mr.runtime_min = none → mr ∉ filteredMovies mdata fs) ∧
    (tr.seasons = none → tr ∉ filteredTV tdata fs) := by
  refine ⟨fun hsc hg => filteredMovies_mem_iff mdata fs mr hsc hg,
    fun hsc hg => filteredTV_mem_iff tdata fs tr hsc hg,
    fun hnone hmem => ?_, fun hnone hmem => ?_⟩
  · have hp := (List.mem_filter.mp hmem).2
    simp only [Bool.and_eq_true] at hp
    have h1 := hp.1.1.1.1.1
    rw [hnone] at h1
    simp at h1
  · have hp := (List.mem_filter.mp hmem).2
    simp only [Bool.and_eq_true] at hp
    have h1 := hp.1.1.1.1.1
    rw [hnone] at h1
    simp at h1

/-- Counterexample to C2 as stated: with `selectedCountry` set to the empty
string (a value its `string | null` type allows), the code's truthiness test
treats the country filter as "no restriction", so a record whose country is
"France" appears in the view although the claim's country predicate
(`primary_country` equals the selected country) is false. -/
theorem C2_counterexample :
    ¬ (mv1 ∈ filteredMovies [mv1] { fs0 with selectedCountry := some "" } ↔
        mv1 ∈ [mv1] ∧ specMoviePred { fs0 with selectedCountry := some "" } mv1) := by
  intro h
  have hmem : mv1 ∈ filteredMovies [mv1] { fs0 with selectedCountry := some "" } := by decide
  have hspec := (h.mp hmem).2
  rcases hspec with ⟨-, -, -, -, -, hctry, -⟩
  rcases hctry with hc | hc
  · simp [fs0] at hc
  · simp [mv1, fs0] at hc

/-- Witness for C2: the characterization at a concrete record and state, and
a record with absent runtime never appearing. -/
theorem C2_witness :
    (mvN ∈ filteredMovies [mvN] fs0 ↔ mvN ∈ [mvN] ∧ specMoviePred fs0 mvN) ∧
    mvN ∉ filteredMovies [mvN] fs0 :=
  ⟨(C2_detail_view_membership [mvN] [tv1] fs0 mvN tv1).1 (by decide) (by decide),
   (C2_detail_view_membership [mvN] [tv1] fs0 mvN tv1).2.2.1 rfl⟩

/-- C4: for every filter state whose `ratingGroups` set is empty, the
movie-detail and TV-detail derived views are empty on every dataset,
regardless of all other filter dimensions. -/
theorem C4_empty_ratingGroups_empty_views (mdata : List MovieRuntimeRec)
    (tdata : List TVSeasonsRec) (fs : FilterState) (h : fs.ratingGroups = []) :
    filteredMovies mdata fs = [] ∧ filteredTV tdata fs = [] := by
  refine ⟨List.filter_eq_nil_iff.mpr fun a _ => ?_, List.filter_eq_nil_iff.mpr fun a _ => ?_⟩ <;>
    simp [h]

/-- Witness for C4 at a concrete dataset and filter state. -/
theorem C4_witness :
    filteredMovies [mv1] { fs0 with ratingGroups := [] } = [] ∧
    filteredTV [tv1] { fs0 with ratingGroups := [] } = [] :=
  C4_empty_ratingGroups_empty_views [mv1] [tv1] _ rfl

/-- C5: `reset` yields, in one step and from any prior filter state, the state
with `typeFilter = All`, `yearRange` equal to the observed min/max of the
genre-year dataset, empty `selectedGenres`, all four rating groups, both
brushes absent, and country, actor focus and age bucket absent; and in that
state the genre-by-year derived view is the full unfiltered dataset. -/
theorem C5_reset_restores_defaults (gy : List GenreYearRec) (fs : FilterState) :
    reset gy fs =
      { typeFilter := .All
        yearRange := (minYearOf gy, maxYearOf gy)
        selectedGenres := []
        ratingGroups := [.Kids, .Teen, .Adult, .Other]
        movieYRange := none
        tvYRange := none
        selectedCountry := none
        focusedActor := none
        ageBucket := none } ∧
    filteredGenreByYear gy (reset gy fs) = gy := by
  refine ⟨rfl, List.filter_eq_self.mpr fun r hr => ?_⟩
  have h1 := minYearOf_le gy r hr
  have h2 := le_maxYearOf gy r hr
  simp [reset, matchesType, yearOk, h1, h2]

/-- C8 (amended): clicking age bucket `b` clears the selection when `b` is the
currently selected bucket and selects `b` otherwise; hence clicking the same
`b` twice from any state in which `b` is *not* currently selected leaves the
selection absent (from a state in which `b` is selected, two clicks re-select
`b`). -/
theorem C8_bucket_toggle (cur : Option String) (b : String) :
    (cur = some b → clickBucket cur b = none) ∧
    (cur ≠ some b → clickBucket cur b = some b) ∧
    (cur ≠ some b → clickBucket (clickBucket cur b) b = none) := by
  refine ⟨fun h => ?_, fun h => ?_, fun h => ?_⟩ <;> simp [clickBucket, h]

/-- Counterexample to C8 as stated: from the state in which the bucket is
already selected, clicking it twice leaves it selected, not absent. -/
theorem C8_counterexample :
    clickBucket (clickBucket (some "0–1y") "0–1y") "0–1y" ≠ none := by decide

/-- Witness for C8 at a concrete bucket key. -/
theorem C8_witness :
    clickBucket (some "0–1y") "0–1y" = none ∧
    clickBucket none "0–1y" = some "0–1y" ∧
    clickBucket (clickBucket none "0–1y") "0–1y" = none :=
  ⟨(C8_bucket_toggle (some "0–1y") "0–1y").1 rfl,
   (C8_bucket_toggle none "0–1y").2.1 (by decide),
   (C8_bucket_toggle none "0–1y").2.2 (by decide)⟩

/-- C3 (amended): with an age bucket selected, a record appears in the
age-clock view only if its `age_years` lies in the bucket's *closed* interval
`[lo, hi]` (the source tests `age <= hi`, so the upper bound is inclusive, not
exclusive as the claim states); and a record with negative `age_years` never
appears in the view under any filter state. -/
theorem C3_age_clock_bucket (raw : List ContentAgeRec) (r : ContentAgeRec) (b : Bucket)
    (fs : FilterState) (hb : b ∈ BUCKETS) (hsel : fs.ageBucket = some b.key) :
    (r ∈ ageFiltered raw fs → b.lo ≤ r.age_years ∧ r.age_years ≤ b.hi) ∧
    (∀ fs' : FilterState, r.age_years < 0 → r ∉ ageFiltered raw fs') := by
  constructor
  · intro hmem
    have hp := (List.mem_filter.mp hmem).2
    simp only [Bool.and_eq_true, decide_eq_true_eq] at hp
    have hbk := hp.2
    rw [hsel] at hbk
    fin_cases hb <;>
      (simp [bucketOk, strTruthy, BUCKETS, List.find?] at hbk; exact hbk)
  · intro fs' hneg hmem
    have hp := (List.mem_filter.mp hmem).2
    simp only [Bool.and_eq_true, decide_eq_true_eq] at hp
    exact absurd hp.1.1.1.1 (not_le.mpr hneg)

/-- Counterexample to C3 as stated: a record of age exactly 1 appears in the
view with the "0–1y" bucket selected, although 1 is not in the half-open
interval `[0, 1)` the claim prescribes. -/
theorem C3_counterexample :
    ca1 ∈ ageFiltered [ca1] { fs0 with ageBucket := some "0–1y" } ∧
    ca1.age_years = 1 ∧ ¬ (ca1.age_years < 1) := by decide

/-- Witness for C3: a record of age 3 inside the selected "2–4y" bucket, and a
record of negative age excluded. -/
theorem C3_witness :
    ((⟨"2–4y", 2, 4⟩ : Bucket).lo ≤ ca3.age_years ∧
      ca3.age_years ≤ (⟨"2–4y", 2, 4⟩ : Bucket).hi) ∧
    caNeg ∉ ageFiltered [caNeg] fs0 :=
  ⟨(C3_age_clock_bucket [ca3] ca3 ⟨"2–4y", 2, 4⟩ { fs0 with ageBucket := some "2–4y" }
      (by decide) rfl).1 (by decide),
   (C3_age_clock_bucket [caNeg] caNeg ⟨"0–1y", 0, 1⟩ { fs0 with ageBucket := some "0–1y" }
      (by decide) rfl).2 fs0 (by decide)⟩

theorem findBucket_le_one (a : ℚ) (h0 : 0 ≤ a) (h1 : a ≤ 1) :
    findBucket a = some { key := "0–1y", lo := 0, hi := 1 } := by
  simp [findBucket, BUCKETS, List.find?, h0, h1]

theorem findBucket_2_4 (a : ℚ) (h2 : 2 ≤ a) (h4 : a ≤ 4) :
    findBucket a = some { key := "2–4y", lo := 2, hi := 4 } := by
  have n1 : ¬ a ≤ 1 := by linarith
  simp [findBucket, BUCKETS, List.find?, n1, h2, h4]

theorem findBucket_5_9 (a : ℚ) (h5 : 5 ≤ a) (h9 : a ≤ 9) :
    findBucket a = some { key := "5–9y", lo := 5, hi := 9 } := by
  have n1 : ¬ a ≤ 1 := by linarith
  have n4 : ¬ a ≤ 4 := by linarith
  simp [findBucket, BUCKETS, List.find?, n1, n4, h5, h9]

theorem findBucket_10_19 (a : ℚ) (h10 : 10 ≤ a) (h19 : a ≤ 19) :
    findBucket a = some { key := "10–19y", lo := 10, hi := 19 } := by
  have n1 : ¬ a ≤ 1 := by linarith
  have n4 : ¬ a ≤ 4 := by linarith
  have n9 : ¬ a ≤ 9 := by linarith
  simp [findBucket, BUCKETS, List.find?, n1, n4, n9, h10, h19]

theorem findBucket_20_200 (a : ℚ) (h20 : 20 ≤ a) (h200 : a ≤ 200) :
    findBucket a = some { key := "20y+", lo := 20, hi := 200 } := by
  have n1 : ¬ a ≤ 1 := by linarith
  have n4 : ¬ a ≤ 4 := by linarith
  have n9 : ¬ a ≤ 9 := by linarith
  have n19 : ¬ a ≤ 19 := by linarith
  simp [findBucket, BUCKETS, List.find?, n1, n4, n9, n19, h20, h200]

theorem findBucket_gt_200 (a : ℚ) (h : 200 < a) : findBucket a = none := by
  have n1 : ¬ a ≤ 1 := by linarith
  have n4 : ¬ a ≤ 4 := by linarith
  have n9 : ¬ a ≤ 9 := by linarith
  have n19 : ¬ a ≤ 19 := by linarith
  have n200 : ¬ a ≤ 200 := by linarith
  simp [findBucket, BUCKETS, List.find?, n1, n4, n9, n19, n200]

theorem findBucket_gap_1_2 (a : ℚ) (ha : 1 < a) (hb : a < 2) : findBucket a = none := by
  have n1 : ¬ a ≤ 1 := by linarith
  have n2 : ¬ 2 ≤ a := by linarith
  have n5 : ¬ 5 ≤ a := by linarith
  have n10 : ¬ 10 ≤ a := by linarith
  have n20 : ¬ 20 ≤ a := by linarith
  simp [findBucket, BUCKETS, List.find?, n1, n2, n5, n10, n20]

theorem findBucket_int_total (a : ℚ) (hint : ∃ n : ℤ, a = (n : ℚ))
    (h0 : 0 ≤ a) (h200 : a ≤ 200) : (findBucket a).isSome = true := by
  obtain ⟨n, rfl⟩ := hint
  by_cases c1 : n ≤ 1
  · rw [findBucket_le_one _ h0 (by exact_mod_cast c1)]
    rfl
  · have h2 : (2 : ℚ) ≤ (n : ℚ) := by exact_mod_cast (by omega : (2 : ℤ) ≤ n)
    by_cases c4 : n ≤ 4
    · rw [findBucket_2_4 _ h2 (by exact_mod_cast c4)]
      rfl
    · have h5 : (5 : ℚ) ≤ (n : ℚ) := by exact_mod_cast (by omega : (5 : ℤ) ≤ n)
      by_cases c9 : n ≤ 9
      · rw [findBucket_5_9 _ h5 (by exact_mod_cast c9)]
        rfl
      · have h10 : (10 : ℚ) ≤ (n : ℚ) := by exact_mod_cast (by omega : (10 : ℤ) ≤ n)
        by_cases c19 : n ≤ 19
        · rw [findBucket_10_19 _ h10 (by exact_mod_cast c19)]
          rfl
        · have h20 : (20 : ℚ) ≤ (n : ℚ) := by exact_mod_cast (by omega : (20 : ℤ) ≤ n)
          rw [findBucket_20_200 _ h20 h200]
          rfl

/-- C10: for any record passing the age-clock view filter, the pivot's bucket
lookup succeeds whenever `age_years` is an integer between 0 and 200
inclusive (so the non-null assertion's failure branch is unreachable under
that precondition), while for `age_years` greater than 200, or a non-integer
`age_years` strictly between 1 and 2, no bucket matches and the lookup
returns nothing. -/
theorem C10_bucket_lookup (raw : List ContentAgeRec) (fs : FilterState)
    (r : ContentAgeRec) (hr : r ∈ ageFiltered raw fs) :
    ((∃ n : ℤ, r.age_years = (n : ℚ)) → r.age_years ≤ 200 →
      (findBucket r.age_years).isSome = true) ∧
    (200 < r.age_years → findBucket r.age_years = none) ∧
    (1 < r.age_years → r.age_years < 2 → findBucket r.age_years = none) := by
  have hp := (List.mem_filter.mp hr).2
  simp only [Bool.and_eq_true, decide_eq_true_eq] at hp
  have h0 : 0 ≤ r.age_years := hp.1.1.1.1
  exact ⟨fun hint h200 => findBucket_int_total _ hint h0 h200,
    fun h => findBucket_gt_200 _ h,
    fun ha hb => findBucket_gap_1_2 _ ha hb⟩

/-- Witness for C10: the lookup succeeds at integer age 5 and fails at age
3/2, both for records passing the view filter. -/
theorem C10_witness :
    (findBucket ca5.age_years).isSome = true ∧
    findBucket caHalf.age_years = none :=
  ⟨(C10_bucket_lookup [ca5] fs0 ca5 (by decide)).1 ⟨5, by decide⟩ (by decide),
   (C10_bucket_lookup [caHalf] fs0 caHalf (by decide)).2.2 (by decide) (by decide)⟩

/-- C6: the dataset handed to the genre heatmap is filtered by type and year
only — it is independent of `selectedGenres`, and a genre-year record excluded
from the genre-filtered view solely by the genre predicate (it passes the type
and year tests) still appears, projected, in the heatmap's dataset. -/
theorem C6_heatmap_unfiltered_by_genre (gy : List GenreYearRec) (fs : FilterState)
    (sel' : List String) (r : GenreYearRec) (hr : r ∈ gy)
    (_hex : r ∉ filteredGenreByYear gy fs)
    (ht : matchesType fs.typeFilter r.type = true)
    (hy : yearOk fs.yearRange r.release_year = true) :
    heatmapData gy { fs with selectedGenres := sel' } = heatmapData gy fs ∧
    projHeat r ∈ heatmapData gy fs := by
  refine ⟨rfl, ?_⟩
  exact List.mem_map.mpr ⟨r, List.mem_filter.mpr ⟨hr, by simp [ht, hy]⟩, rfl⟩

/-- Witness for C6: with "Drama" selected, the "Comedy" row is excluded from
the genre-filtered view but still appears in the heatmap dataset, which is
also unchanged by switching the selection. -/
theorem C6_witness :
    heatmapData [gy1]
        { ({ fs0 with yearRange := (2015, 2015), selectedGenres := ["Drama"] } : FilterState)
          with selectedGenres := ["Sci-Fi"] } =
      heatmapData [gy1] { fs0 with yearRange := (2015, 2015), selectedGenres := ["Drama"] } ∧
    projHeat gy1 ∈
      heatmapData [gy1] { fs0 with yearRange := (2015, 2015), selectedGenres := ["Drama"] } :=
  C6_heatmap_unfiltered_by_genre [gy1]
    { fs0 with yearRange := (2015, 2015), selectedGenres := ["Drama"] }
    ["Sci-Fi"] gy1 (by decide) (by decide) (by decide) (by decide)

/-- The per-entry content of the WorldMap accumulator after one record. -/
theorem getZ_mapSet_self (m : List (String × Int)) (c : String) (v : Int) :
    getZ (mapSet m c v) c = v := by
  induction m with
  | nil => simp [mapSet, getZ]
  | cons p rest ih =>
    obtain ⟨k, x⟩ := p
    by_cases h : k = c
    · simp [mapSet, h, getZ]
    · simp [mapSet, h, getZ, ih]

theorem getZ_mapSet_ne (m : List (String × Int)) (c c' : String) (v : Int) (h : c' ≠ c) :
    getZ (mapSet m c v) c' = getZ m c' := by
  induction m with
  | nil => simp [mapSet, getZ, Ne.symm h]
  | cons p rest ih =>
    obtain ⟨k, x⟩ := p
    by_cases hk : k = c
    · subst hk
      simp [mapSet, getZ, Ne.symm h]
    · simp [mapSet, hk, getZ, ih]

theorem specCountryTotal_cons (r : CountryYearRec) (rest : List CountryYearRec)
    (yr : Int × Int) (c : String) :
    specCountryTotal (r :: rest) yr c =
      (if (decide (yr.1 ≤ r.release_year) && decide (r.release_year ≤ yr.2) &&
            decide (r.country = c)) = true
       then r.count else 0) + specCountryTotal rest yr c := by
  by_cases h : (decide (yr.1 ≤ r.release_year) && decide (r.release_year ≤ yr.2) &&
      decide (r.country = c)) = true
  · simp [specCountryTotal, List.filter_cons, h]
  · simp [specCountryTotal, List.filter_cons, h]

theorem getZ_wmTotals_fold (yr : Int × Int) (data : List CountryYearRec) :
    ∀ (m : List (String × Int)) (c : String),
      getZ (data.foldl (fun m r =>
        if decide (r.release_year < yr.1) || decide (yr.2 < r.release_year) then m
        else mapSet m r.country (getZ m r.country + r.count)) m) c
      = getZ m c + specCountryTotal data yr c := by
  induction data with
  | nil => intro m c; simp [specCountryTotal]
  | cons r rest ih =>
    intro m c
    simp only [List.foldl_cons]
    by_cases hout : (decide (r.release_year < yr.1) || decide (yr.2 < r.release_year)) = true
    · rw [if_pos hout, ih, specCountryTotal_cons]
      have hz : ¬ ((decide (yr.1 ≤ r.release_year) && decide (r.release_year ≤ yr.2) &&
          decide (r.country = c)) = true) := by
        simp only [Bool.or_eq_true, decide_eq_true_eq] at hout
        simp only [Bool.and_eq_true, decide_eq_true_eq]
        rintro ⟨⟨h1, h2⟩, -⟩
        rcases hout with h | h <;> omega
      rw [if_neg hz, zero_add]
    · rw [if_neg hout, ih, specCountryTotal_cons]
      simp only [Bool.or_eq_true, decide_eq_true_eq, not_or, not_lt] at hout
      obtain ⟨hin1, hin2⟩ := hout
      by_cases hc : r.country = c
      · subst hc
        rw [getZ_mapSet_self]
        have hp : (decide (yr.1 ≤ r.release_year) && decide (r.release_year ≤ yr.2) &&
            decide (r.country = r.country)) = true := by simp [hin1, hin2]
        rw [if_pos hp]
        ring
      · rw [getZ_mapSet_ne _ _ _ _ (fun hcc => hc hcc.symm)]
        have hz : ¬ ((decide (yr.1 ≤ r.release_year) && decide (r.release_year ≤ yr.2) &&
            decide (r.country = c)) = true) := by simp [hc]
        rw [if_neg hz, zero_add]

/-- C7: the country view's per-country total is the sum of `count` over the
country-year records of that country whose release year lies in the closed
`yearRange`, and the totals depend on the filter state only through
`yearRange` (changing `selectedGenres`, `ratingGroups` or `typeFilter` leaves
them unchanged). -/
theorem C7_country_totals (data : List CountryYearRec) (fs fs' : FilterState) (c : String)
    (h : fs'.yearRange = fs.yearRange) :
    getZ (countryTotals data fs) c = specCountryTotal data fs.yearRange c ∧
    countryTotals data fs' = countryTotals data fs := by
  constructor
  · have hfold := getZ_wmTotals_fold fs.yearRange data [] c
    simpa [countryTotals, wmTotals, getZ] using hfold
  · simp [countryTotals, h]

/-- Witness for C7: concrete totals for "France", and invariance of the
country view under changing type, genre and rating filters. -/
theorem C7_witness :
    getZ (countryTotals [cy1, cy2, cy3] { fs0 with yearRange := (2014, 2016) }) "France" =
      specCountryTotal [cy1, cy2, cy3]
        ({ fs0 with yearRange := (2014, 2016) } : FilterState).yearRange "France" ∧
    countryTotals [cy1, cy2, cy3]
        { fs0 with yearRange := (2014, 2016), typeFilter := .Movie,
                   selectedGenres := ["Drama"], ratingGroups := [] } =
      countryTotals [cy1, cy2, cy3] { fs0 with yearRange := (2014, 2016) } :=
  C7_country_totals [cy1, cy2, cy3] _ _ "France" rfl

/-- C9: the displayed total is the sum of the `count` fields of the records
passing the genre-by-year predicate, not the number of passing rows; on the
spec's two-row scenario the total is 15 with no genre selected (while the row
count is 2) and 10 after toggling "Comedy" into the selection. -/
theorem C9_total_is_sum_of_counts :
    (∀ (gy : List GenreYearRec) (fs : FilterState),
      totalTitles gy fs = ((filteredGenreByYear gy fs).map (·.count)).sum) ∧
    totalTitles [gy1, gy2] { fs0 with yearRange := (2015, 2015) } = 15 ∧
    (filteredGenreByYear [gy1, gy2] { fs0 with yearRange := (2015, 2015) }).length = 2 ∧
    totalTitles [gy1, gy2]
      { fs0 with yearRange := (2015, 2015),
                 selectedGenres := toggleGenre fs0.selectedGenres "Comedy" } = 10 := by
  refine ⟨fun gy fs => ?_, by decide, by decide, by decide⟩
  simp [totalTitles, foldl_add_count]

end NVA
